import Mathlib

/-!
Shallow embedding of the Auto-Gains streaming rep-counter core
(`auto_gains/backend/imu_dynamic.py` and `auto_gains/backend/ws_server.py`).

Scalar signal values are modelled by exact rationals (`ℚ`); the only
real-valued quantity is the Euclidean norm returned by the projector's
warm-up branch, modelled in `ℝ` via `Real.sqrt`.  Machine floats carry no
overflow semantics relevant to the claims, so exact arithmetic is the
faithful idealization the spec itself appeals to.
-/

/-- Raw 3-axis sample (ax, ay, az), as handled by `StreamingPCA.update`. -/
structure Vec3 where
  x : ℚ
  y : ℚ
  z : ℚ
deriving DecidableEq, Repr

def Vec3.add (a b : Vec3) : Vec3 := ⟨a.x + b.x, a.y + b.y, a.z + b.z⟩

def Vec3.sub (a b : Vec3) : Vec3 := ⟨a.x - b.x, a.y - b.y, a.z - b.z⟩

def Vec3.smul (q : ℚ) (a : Vec3) : Vec3 := ⟨q * a.x, q * a.y, q * a.z⟩

def Vec3.zero : Vec3 := ⟨0, 0, 0⟩

/-- Squared Euclidean norm of a 3-vector (`np.linalg.norm(v) ** 2`). -/
def Vec3.normSq (a : Vec3) : ℚ := a.x * a.x + a.y * a.y + a.z * a.z

/-- Symmetric 3×3 accumulator, stored as three rows (`self.C` in `StreamingPCA`). -/
structure Mat3 where
  r0 : Vec3
  r1 : Vec3
  r2 : Vec3
deriving DecidableEq, Repr

def Mat3.add (a b : Mat3) : Mat3 :=
  ⟨Vec3.add a.r0 b.r0, Vec3.add a.r1 b.r1, Vec3.add a.r2 b.r2⟩

/-- Outer product `np.outer(delta, delta2)`. -/
def Mat3.outer (v w : Vec3) : Mat3 :=
  ⟨Vec3.smul v.x w, Vec3.smul v.y w, Vec3.smul v.z w⟩

def Mat3.zero : Mat3 := ⟨Vec3.zero, Vec3.zero, Vec3.zero⟩

/-- State of `StreamingPCA` (`imu_dynamic.py`, `__init__`): sample count `n`,
running mean, running unnormalized covariance accumulator `C`, and the
previously retained dominant eigenvector used for sign continuity.
The eigenvector is produced by `np.linalg.eigh` in the post-warm-up branch,
which is outside the rational model; the field is carried but never written
here. -/
structure PCAState where
  warmup : ℕ
  n : ℕ
  mean : Vec3
  C : Mat3
  prev_pc1 : Option Vec3
deriving DecidableEq, Repr

/-- Constructor `StreamingPCA(n_dims=3, warmup)`. -/
def StreamingPCA.init (warmup : ℕ) : PCAState :=
  { warmup := warmup, n := 0, mean := Vec3.zero, C := Mat3.zero, prev_pc1 := none }

/-- State-update portion of `StreamingPCA.update` (lines 64–71 of
`imu_dynamic.py`): Welford step for mean and covariance accumulator. -/
def StreamingPCA.updateState (s : PCAState) (x : Vec3) : PCAState :=
  let n := s.n + 1
  let delta := Vec3.sub x s.mean
  let mean := Vec3.add s.mean (Vec3.smul (1 / (n : ℚ)) delta)
  let delta2 := Vec3.sub x mean
  { s with n := n, mean := mean, C := Mat3.add s.C (Mat3.outer delta delta2) }

/-- Return value of `StreamingPCA.update`.  During warm-up (`n < warmup`) the
code returns `np.linalg.norm(x - self.mean)` computed after the Welford step;
the post-warm-up branch projects onto the dominant eigenvector of the
covariance estimate via `np.linalg.eigh`, an iterative LAPACK routine with no
exact shallow embedding, and is modelled as `none` (the claims below touch
only the state update and the warm-up branch). -/
noncomputable def StreamingPCA.update (s : PCAState) (x : Vec3) : PCAState × Option ℝ :=
  let s' := StreamingPCA.updateState s x
  if s'.n < s'.warmup then
    (s', some (Real.sqrt ((Vec3.normSq (Vec3.sub x s'.mean) : ℚ) : ℝ)))
  else
    (s', none)

/-- Folding the Welford state update over a list of samples. -/
def StreamingPCA.runState (s : PCAState) (xs : List Vec3) : PCAState :=
  xs.foldl StreamingPCA.updateState s

/-- Componentwise sum of a list of samples. -/
def Vec3.listSum : List Vec3 → Vec3
  | [] => Vec3.zero
  | x :: xs => Vec3.add x (Vec3.listSum xs)

/-- State of `StreamingSmoother`: smoothing factor and the current EMA value,
`None` before the first sample. -/
structure SmootherState where
  alpha : ℚ
  value : Option ℚ
deriving DecidableEq, Repr

/-- Constructor `StreamingSmoother(alpha)`. -/
def StreamingSmoother.init (alpha : ℚ) : SmootherState :=
  { alpha := alpha, value := none }

/-- Method `StreamingSmoother.update` (lines 124–129 of `imu_dynamic.py`):
first call stores and returns `x`; later calls return
`alpha * x + (1 - alpha) * previous`. -/
def StreamingSmoother.update (s : SmootherState) (x : ℚ) : SmootherState × ℚ :=
  match s.value with
  | none => ({ s with value := some x }, x)
  | some v =>
      let y := s.alpha * x + (1 - s.alpha) * v
      ({ s with value := some y }, y)

/-- Output sequence of the smoother driven from state `s` over an input list. -/
def StreamingSmoother.outputs (s : SmootherState) : List ℚ → List ℚ
  | [] => []
  | x :: xs =>
      let p := StreamingSmoother.update s x
      p.2 :: StreamingSmoother.outputs p.1 xs

/-- Discrete state of the peak/valley state machine
(`'WAITING_FOR_PEAK'` / `'WAITING_FOR_VALLEY'` in `StreamingRepCounter`). -/
inductive RepState where
  | waitingForPeak
  | waitingForValley
deriving DecidableEq, Repr

/-- State of `StreamingRepCounter` (`imu_dynamic.py`, `__init__`).  The
visualization history lists are part of the object and are carried
faithfully.  `rep_detection_samples` holds `Option ℤ` because the Python list
stores whatever `self.valley_sample_idx` holds, which is `None` initially. -/
structure RepCounterState where
  amplitude_threshold : ℚ
  min_samples_between_reps : ℕ
  baseline_window : ℕ
  state : RepState
  rep_count : ℕ
  samples_since_last_rep : ℕ
  current_peak : Option ℚ
  current_valley : Option ℚ
  peak_sample_idx : Option ℤ
  valley_sample_idx : Option ℤ
  recent_samples : List ℚ
  baseline : ℚ
  signal_history : List ℚ
  baseline_history : List ℚ
  state_history : List RepState
  rep_detection_samples : List (Option ℤ)
  rep_amplitudes : List ℚ
deriving DecidableEq, Repr

/-- Constructor `StreamingRepCounter(amplitude_threshold, min_samples_between_reps,
baseline_window)`. -/
def StreamingRepCounter.init (amplitude_threshold : ℚ)
    (min_samples_between_reps baseline_window : ℕ) : RepCounterState :=
  { amplitude_threshold := amplitude_threshold
    min_samples_between_reps := min_samples_between_reps
    baseline_window := baseline_window
    state := .waitingForPeak
    rep_count := 0
    samples_since_last_rep := 0
    current_peak := none
    current_valley := none
    peak_sample_idx := none
    valley_sample_idx := none
    recent_samples := []
    baseline := 0
    signal_history := []
    baseline_history := []
    state_history := []
    rep_detection_samples := []
    rep_amplitudes := [] }

/-- Arithmetic mean of a list of rationals (`np.mean`); the call sites only
use it on nonempty lists. -/
def listMean (xs : List ℚ) : ℚ := xs.sum / (xs.length : ℚ)

/-- Bounded recent window after one call (`imu_dynamic.py` lines 186–188):
append the new signal, then `pop(0)` once if the length exceeds the
configured capacity. -/
def newRecentWindow (c : RepCounterState) (signal_value : ℚ) : List ℚ :=
  let appended := c.recent_samples ++ [signal_value]
  if c.baseline_window < appended.length then appended.drop 1 else appended

/-- Centered signal seen by the state machine on this call: the new signal
minus the freshly recomputed baseline (lines 189–192). -/
def centeredSignal (c : RepCounterState) (signal_value : ℚ) : ℚ :=
  signal_value - listMean (newRecentWindow c signal_value)

/-- Running-minimum valley tracker (line 206–207): the valley is replaced
when the centered signal drops strictly below it. -/
def trackedValley (v0 centered : ℚ) : ℚ :=
  if centered < v0 then centered else v0

/-- Result record returned by `StreamingRepCounter.process_sample`
(lines 231–237). -/
structure ProcResult where
  rep_count : ℕ
  state : RepState
  baseline : ℚ
  rep_detected : Bool
  amplitude : ℚ
deriving DecidableEq, Repr

/-- Method `StreamingRepCounter.process_sample` (`imu_dynamic.py` lines
175–237), transcribed step for step.  The result is `none` exactly where the
Python would raise a `TypeError` by comparing or subtracting `None`
(possible only from states never produced by the constructor or by the
method itself: `WAITING_FOR_VALLEY` with an unset valley, or a counted
transition with an unset peak). -/
def StreamingRepCounter.process_sample (c : RepCounterState) (signal_value : ℚ)
    (sample_idx : ℤ) : Option (RepCounterState × ProcResult) :=
  let samples_since := c.samples_since_last_rep + 1
  let recent := newRecentWindow c signal_value
  let baseline := listMean recent
  let signal_centered := signal_value - baseline
  match c.state with
  | .waitingForPeak =>
      let pk : ℚ × Option ℤ :=
        match c.current_peak with
        | none => (signal_centered, some sample_idx)
        | some p =>
            if p < signal_centered then (signal_centered, some sample_idx)
            else (p, c.peak_sample_idx)
      let tr : RepState × Option ℚ × Option ℤ :=
        if signal_centered < pk.1 - 3 then
          (.waitingForValley, some signal_centered, some sample_idx)
        else
          (.waitingForPeak, c.current_valley, c.valley_sample_idx)
      let c' : RepCounterState :=
        { c with
          samples_since_last_rep := samples_since
          recent_samples := recent
          baseline := baseline
          state := tr.1
          current_peak := some pk.1
          peak_sample_idx := pk.2
          current_valley := tr.2.1
          valley_sample_idx := tr.2.2
          signal_history := c.signal_history ++ [signal_value]
          baseline_history := c.baseline_history ++ [baseline]
          state_history := c.state_history ++ [tr.1] }
      some (c', { rep_count := c.rep_count, state := tr.1, baseline := baseline,
                  rep_detected := false,
                  amplitude := if tr.1 = .waitingForValley then 0 else 0 })
  | .waitingForValley =>
      match c.current_valley with
      | none => none
      | some v0 =>
          let valley := trackedValley v0 signal_centered
          let vidx : Option ℤ :=
            if signal_centered < v0 then some sample_idx else c.valley_sample_idx
          if valley + 3 < signal_centered then
            match c.current_peak with
            | none => none
            | some p =>
                let amplitude := p - valley
                let counted : Bool :=
                  decide (c.amplitude_threshold < amplitude) &&
                  decide (c.min_samples_between_reps < samples_since)
                let c' : RepCounterState :=
                  { c with
                    samples_since_last_rep := if counted then 0 else samples_since
                    rep_count := if counted then c.rep_count + 1 else c.rep_count
                    rep_detection_samples :=
                      if counted then c.rep_detection_samples ++ [vidx]
                      else c.rep_detection_samples
                    rep_amplitudes :=
                      if counted then c.rep_amplitudes ++ [amplitude]
                      else c.rep_amplitudes
                    recent_samples := recent
                    baseline := baseline
                    state := .waitingForPeak
                    current_peak := some signal_centered
                    peak_sample_idx := some sample_idx
                    current_valley := none
                    valley_sample_idx := vidx
                    signal_history := c.signal_history ++ [signal_value]
                    baseline_history := c.baseline_history ++ [baseline]
                    state_history := c.state_history ++ [RepState.waitingForPeak] }
                some (c', { rep_count := c'.rep_count, state := .waitingForPeak,
                            baseline := baseline, rep_detected := counted,
                            amplitude :=
                              if RepState.waitingForPeak = RepState.waitingForValley
                              then amplitude else 0 })
          else
            let c' : RepCounterState :=
              { c with
                samples_since_last_rep := samples_since
                recent_samples := recent
                baseline := baseline
                current_valley := some valley
                valley_sample_idx := vidx
                signal_history := c.signal_history ++ [signal_value]
                baseline_history := c.baseline_history ++ [baseline]
                state_history := c.state_history ++ [RepState.waitingForValley] }
            some (c', { rep_count := c.rep_count, state := .waitingForValley,
                        baseline := baseline, rep_detected := false,
                        amplitude :=
                          if RepState.waitingForValley = RepState.waitingForValley
                          then 0 else 0 })

/-- Feeding a list of (signal, index) pairs through `process_sample` in
order; `none` if any call would have raised. -/
def StreamingRepCounter.runMany (c : RepCounterState) :
    List (ℚ × ℤ) → Option RepCounterState
  | [] => some c
  | p :: ps =>
      match StreamingRepCounter.process_sample c p.1 p.2 with
      | none => none
      | some cr => StreamingRepCounter.runMany cr.1 ps

/-- State of `StreamingPipeline` (`imu_dynamic.py` lines 255–280): one
projector, one smoother, one rep counter, plus the raw/intermediate history
lists kept for visualization. -/
structure PipelineState where
  pca : PCAState
  smoother : SmootherState
  counter : RepCounterState
  raw_history : List Vec3
  pc1_raw_history : List ℚ
  pc1_smooth_history : List ℚ
deriving DecidableEq, Repr

/-- Constructor `StreamingPipeline(amplitude_threshold, min_samples_between_reps,
baseline_window, pca_warmup, smooth_alpha)`. -/
def StreamingPipeline.init (amplitude_threshold : ℚ)
    (min_samples_between_reps baseline_window pca_warmup : ℕ)
    (smooth_alpha : ℚ) : PipelineState :=
  { pca := StreamingPCA.init pca_warmup
    smoother := StreamingSmoother.init smooth_alpha
    counter := StreamingRepCounter.init amplitude_threshold
      min_samples_between_reps baseline_window
    raw_history := []
    pc1_raw_history := []
    pc1_smooth_history := [] }

/-- Mutable state of `RepServer` touched by the session-level claims
(`ws_server.py` `__init__` lines 72–78): the pipeline (None until a client
connects), the running sample index of the consumer loop, and the optional
in-flight auto-detect classification buffer. -/
structure ServerState where
  pipeline : Option PipelineState
  sample_idx : ℕ
  auto_detect_buffer : Option (List Vec3)
deriving DecidableEq, Repr

/-- Constant `AUTO_DETECT_SAMPLES = 200` (`ws_server.py` line 27). -/
def AUTO_DETECT_SAMPLES : ℕ := 200

/-- Pipeline configuration hard-coded in `RepServer._reset_pipeline`
(`ws_server.py` lines 161–167): threshold 21.0, min spacing 20, baseline
window 50, PCA warm-up 30, EMA alpha 0.15. -/
def RepServer.freshPipeline : PipelineState :=
  StreamingPipeline.init 21 20 50 30 (3 / 20)

/-- Method `RepServer._reset_pipeline` (`ws_server.py` lines 159–168):
construct a brand-new `StreamingPipeline` and zero the sample index. -/
def RepServer.resetPipeline (s : ServerState) : ServerState :=
  { s with pipeline := some RepServer.freshPipeline, sample_idx := 0 }

/-- Effect of a viewer `{action: "reset"}` request (`ws_server.py` lines
297–299): `_reset_pipeline()` followed by clearing the auto-detect buffer. -/
def RepServer.handleResetRequest (s : ServerState) : ServerState :=
  { RepServer.resetPipeline s with auto_detect_buffer := none }

/-- Session state established for a freshly constructed session: the state a
brand-new `RepServer` (pipeline `None`, buffer `None`, index 0) is in right
after `_handle_client` runs `_reset_pipeline()` for the first connecting
viewer. -/
def RepServer.freshSession : ServerState :=
  { pipeline := some RepServer.freshPipeline, sample_idx := 0,
    auto_detect_buffer := none }

/-- Incoming viewer message, distinguished exactly as `_handle_client`
distinguishes it (`ws_server.py` lines 294–311): `json.loads` raises
`JSONDecodeError` (caught) on invalid JSON; a valid-JSON non-object payload
(number, string, array, …) has no `.get`, so `data.get("action")` raises an
uncaught `AttributeError`; a JSON object yields an optional `action` string. -/
inductive ViewerMsg where
  | notJson
  | jsonNonObject
  | jsonObject (action : Option String)
deriving DecidableEq, Repr

/-- Reply sent back on the same connection by the control branches of
`_handle_client`. -/
inductive Reply where
  | resetAck
  | autoDetectStarted (samples_needed : ℕ)
deriving DecidableEq, Repr

/-- Outcome of handling one viewer message: either the loop continues with a
possibly updated session state and an optional reply, or an uncaught
exception terminates this viewer's handler (the `finally` removes the client
and the websocket library closes the connection). -/
inductive HandlerStep where
  | ok (s : ServerState) (reply : Option Reply)
  | handlerError (s : ServerState)
deriving DecidableEq, Repr

/-- Body of the message loop of `RepServer._handle_client` (`ws_server.py`
lines 294–311) for a single incoming message. -/
def RepServer.handleViewerMessage (s : ServerState) (m : ViewerMsg) : HandlerStep :=
  match m with
  | .notJson => .ok s none
  | .jsonNonObject => .handlerError s
  | .jsonObject a =>
      if a = some "reset" then
        .ok (RepServer.handleResetRequest s) (some .resetAck)
      else if a = some "start_auto_detect" then
        .ok { s with auto_detect_buffer := some [] }
          (some (.autoDetectStarted AUTO_DETECT_SAMPLES))
      else
        .ok s none

/-- Repetition count captured at classification time (`ws_server.py` lines
187–191): `self.pipeline.counter.rep_count` when a pipeline exists, else 0. -/
def RepServer.repCountOf (s : ServerState) : ℕ :=
  match s.pipeline with
  | some p => p.counter.rep_count
  | none => 0

/-- Broadcast payload of an `exercise_detected` message (`ws_server.py`
lines 199–219): label, captured rep count, optional error annotation. -/
structure ExerciseMsg where
  exercise : String
  rep_count : ℕ
  error : Option String
deriving DecidableEq, Repr

/-- Outcome of the external Classifier Collaborator, which the core only
sees through `_load_classifier` / `classify_exercise`: the model may be
unavailable (`_load_classifier` returns `None`), may return a label, or may
raise. -/
inductive ClassifierOutcome where
  | unavailable
  | ok (label : String)
  | err (msg : String)
deriving DecidableEq, Repr

/-- Auto-detect portion of one consumer-loop iteration (`ws_server.py` lines
180–219): if a classification buffer is open, append the sample; once it
reaches `AUTO_DETECT_SAMPLES`, close the buffer, capture the current rep
count WITHOUT touching the pipeline, and produce the `exercise_detected`
broadcast — the classifier's label on success, the `"bicep_curl"` fallback
with an error annotation if the classifier raised, and the plain fallback if
the model is unavailable (or the buffer is shorter than 10). -/
def RepServer.autoDetectStep (s : ServerState) (sample : Vec3)
    (cls : ClassifierOutcome) : ServerState × Option ExerciseMsg :=
  match s.auto_detect_buffer with
  | none => (s, none)
  | some buf =>
      let buf' := buf ++ [sample]
      if AUTO_DETECT_SAMPLES ≤ buf'.length then
        let rep_count := RepServer.repCountOf s
        let s' := { s with auto_detect_buffer := none }
        match cls with
        | .unavailable => (s', some ⟨"bicep_curl", rep_count, none⟩)
        | .ok label =>
            if 10 ≤ buf'.length then (s', some ⟨label, rep_count, none⟩)
            else (s', some ⟨"bicep_curl", rep_count, none⟩)
        | .err e =>
            if 10 ≤ buf'.length then (s', some ⟨"bicep_curl", rep_count, some e⟩)
            else (s', some ⟨"bicep_curl", rep_count, none⟩)
      else
        ({ s with auto_detect_buffer := some buf' }, none)

/-- Semantics of `asyncio.Queue.put_nowait` on a queue constructed with
`maxsize = 1000` (`ws_server.py` line 321): with a positive `maxsize`, a full
queue makes the call raise `QueueFull` (modelled as `Except.error ()`) and
the item is not enqueued; otherwise the item is appended.  Neither
`_serial_reader` (which schedules exactly this call via
`loop.call_soon_threadsafe`, lines 110–112) nor any other code catches
`QueueFull`. -/
def asyncioQueuePutNowait (maxsize : ℕ) (q : List (ℤ × ℤ × ℤ))
    (item : ℤ × ℤ × ℤ) : Except Unit (List (ℤ × ℤ × ℤ)) :=
  if 0 < maxsize ∧ maxsize ≤ q.length then .error () else .ok (q ++ [item])

/-- Capacity of the handoff queue (`ws_server.py` line 321). -/
def QUEUE_MAXSIZE : ℕ := 1000

/-! ### Smoother lemmas (claim C8) -/

theorem StreamingSmoother.outputs_take (xs : List ℚ) :
    ∀ (s : SmootherState) (m : ℕ),
      StreamingSmoother.outputs s (xs.take m) = (StreamingSmoother.outputs s xs).take m := by
  induction xs with
  | nil => intro s m; simp [StreamingSmoother.outputs]
  | cons x xs ih =>
      intro s m
      cases m with
      | zero => simp [StreamingSmoother.outputs]
      | succ m =>
          simp only [List.take_succ_cons, StreamingSmoother.outputs, ih]

/-- C8: the Causal Smoother is strictly causal.  Two input sequences that
agree on all indices up to and including `k` drive a freshly constructed
smoother to identical outputs at every index up to and including `k`
(stated as equality of the length-(k+1) output prefixes, which also gives
the truncation formulation via `StreamingSmoother.outputs_take`). -/
theorem smoother_strictly_causal (alpha : ℚ) (xs ys : List ℚ) (k : ℕ)
    (h : xs.take (k + 1) = ys.take (k + 1)) :
    (StreamingSmoother.outputs (StreamingSmoother.init alpha) xs).take (k + 1) =
      (StreamingSmoother.outputs (StreamingSmoother.init alpha) ys).take (k + 1) := by
  rw [← StreamingSmoother.outputs_take, ← StreamingSmoother.outputs_take, h]

/-- Witness for C8 at a concrete instance: inputs `[1,2,3]` and `[1,2,4]`
agree up to index 1, and the smoother outputs agree up to index 1. -/
theorem smoother_strictly_causal_witness :
    ([(1 : ℚ), 2, 3].take 2 = [(1 : ℚ), 2, 4].take 2) ∧
    (StreamingSmoother.outputs (StreamingSmoother.init (1 / 2)) [1, 2, 3]).take 2 =
      (StreamingSmoother.outputs (StreamingSmoother.init (1 / 2)) [1, 2, 4]).take 2 :=
  ⟨rfl, smoother_strictly_causal (1 / 2) [1, 2, 3] [1, 2, 4] 1 rfl⟩

/-! ### Projector mean lemmas (claims C7 and C10) -/

theorem Vec3.add_assoc (a b c : Vec3) :
    Vec3.add (Vec3.add a b) c = Vec3.add a (Vec3.add b c) := by
  cases a; cases b; cases c
  simp [Vec3.add]; refine ⟨by ring, by ring, by ring⟩

theorem Vec3.zero_add (a : Vec3) : Vec3.add Vec3.zero a = a := by
  cases a; simp [Vec3.add, Vec3.zero]

theorem Vec3.zero_smul (a : Vec3) : Vec3.smul 0 a = Vec3.zero := by
  cases a; simp [Vec3.smul, Vec3.zero]

theorem Vec3.smul_smul (p q : ℚ) (a : Vec3) :
    Vec3.smul p (Vec3.smul q a) = Vec3.smul (p * q) a := by
  cases a; simp [Vec3.smul]; refine ⟨by ring, by ring, by ring⟩

theorem Vec3.one_smul (a : Vec3) : Vec3.smul 1 a = a := by
  cases a; simp [Vec3.smul]

/-- One Welford step, multiplied through by the new count: with `n = s.n + 1`
samples seen, `n * mean' = s.n * mean + x`. -/
theorem StreamingPCA.updateState_mean (s : PCAState) (x : Vec3) :
    Vec3.smul (((s.n + 1 : ℕ) : ℚ)) (StreamingPCA.updateState s x).mean =
      Vec3.add (Vec3.smul ((s.n : ℕ) : ℚ) s.mean) x := by
  have hn : (((s.n + 1 : ℕ) : ℚ)) ≠ 0 := by
    push_cast
    positivity
  cases hm : s.mean with
  | mk mx my mz =>
      cases x with
      | mk xx xy xz =>
          simp only [StreamingPCA.updateState, hm, Vec3.add, Vec3.sub, Vec3.smul, Vec3.mk.injEq]
          push_cast at hn ⊢
          refine ⟨?_, ?_, ?_⟩ <;> field_simp <;> ring

/-- Running the Welford update over a list: the count advances by the list
length and the mean times the final count equals the initial mass plus the
sum of the samples. -/
theorem StreamingPCA.runState_invariant (xs : List Vec3) :
    ∀ s : PCAState,
      (StreamingPCA.runState s xs).n = s.n + xs.length ∧
      Vec3.smul (((s.n + xs.length : ℕ) : ℚ)) (StreamingPCA.runState s xs).mean =
        Vec3.add (Vec3.smul ((s.n : ℕ) : ℚ) s.mean) (Vec3.listSum xs) := by
  induction xs with
  | nil =>
      intro s
      simp [StreamingPCA.runState, Vec3.listSum]
      cases hm : s.mean with
      | mk mx my mz => simp [Vec3.add, Vec3.smul, Vec3.zero]
  | cons x xs ih =>
      intro s
      have hrun : StreamingPCA.runState s (x :: xs) =
          StreamingPCA.runState (StreamingPCA.updateState s x) xs := rfl
      have hn1 : (StreamingPCA.updateState s x).n = s.n + 1 := rfl
      obtain ⟨ihn, ihm⟩ := ih (StreamingPCA.updateState s x)
      constructor
      · rw [hrun, ihn, hn1, List.length_cons]
        omega
      · rw [hrun]
        have hcount : s.n + (x :: xs).length = (StreamingPCA.updateState s x).n + xs.length := by
          rw [hn1, List.length_cons]; omega
        rw [hcount, ihm, hn1, StreamingPCA.updateState_mean]
        rw [Vec3.add_assoc]
        rfl

/-- C7: for every nonempty sequence of samples fed to the Online Projector's
Welford update, the running mean after the last update is exactly the
arithmetic mean of the samples (exact rational arithmetic). -/
theorem pca_mean_is_arithmetic_mean (warmup : ℕ) (xs : List Vec3) (h : xs ≠ []) :
    (StreamingPCA.runState (StreamingPCA.init warmup) xs).mean =
      Vec3.smul (1 / (xs.length : ℚ)) (Vec3.listSum xs) := by
  obtain ⟨hn, hm⟩ := StreamingPCA.runState_invariant xs (StreamingPCA.init warmup)
  have hlen : ((xs.length : ℕ) : ℚ) ≠ 0 := by
    have : xs.length ≠ 0 := by
      cases xs with
      | nil => exact absurd rfl h
      | cons a as => simp
    exact_mod_cast this
  have h0 : ((StreamingPCA.init warmup).n : ℚ) = 0 := by
    simp [StreamingPCA.init]
  have hinit : (StreamingPCA.init warmup).n + xs.length = xs.length := by
    simp [StreamingPCA.init]
  rw [hinit] at hm
  have hmean : Vec3.smul ((xs.length : ℚ)) (StreamingPCA.runState (StreamingPCA.init warmup) xs).mean
      = Vec3.listSum xs := by
    rw [hm, h0, Vec3.zero_smul, Vec3.zero_add]
  calc (StreamingPCA.runState (StreamingPCA.init warmup) xs).mean
      = Vec3.smul (1 / (xs.length : ℚ) * (xs.length : ℚ))
          (StreamingPCA.runState (StreamingPCA.init warmup) xs).mean := by
        rw [one_div_mul_cancel hlen, Vec3.one_smul]
    _ = Vec3.smul (1 / (xs.length : ℚ)) (Vec3.listSum xs) := by
        rw [← Vec3.smul_smul, hmean]

/-- Witness for C7 at a concrete instance: two samples with exact mean. -/
theorem pca_mean_is_arithmetic_mean_witness :
    ([(⟨1, 2, 3⟩ : Vec3), ⟨3, 0, 5⟩] ≠ []) ∧
    (StreamingPCA.runState (StreamingPCA.init 30) [⟨1, 2, 3⟩, ⟨3, 0, 5⟩]).mean =
      Vec3.smul (1 / (([(⟨1, 2, 3⟩ : Vec3), ⟨3, 0, 5⟩].length : ℕ) : ℚ))
        (Vec3.listSum [⟨1, 2, 3⟩, ⟨3, 0, 5⟩]) :=
  ⟨by simp, pca_mean_is_arithmetic_mean 30 [⟨1, 2, 3⟩, ⟨3, 0, 5⟩] (by simp)⟩

/-- C10: the very first call to the Online Projector's update returns
exactly 0 for every input sample, whenever the configured warm-up exceeds 1:
after the first Welford step the running mean equals the sample itself, so
the warm-up fallback is the Euclidean norm of the zero vector. -/
theorem pca_first_update_returns_zero (warmup : ℕ) (x : Vec3) (h : 1 < warmup) :
    (StreamingPCA.update (StreamingPCA.init warmup) x).2 = some 0 := by
  cases x with
  | mk xx xy xz =>
      simp only [StreamingPCA.update, StreamingPCA.updateState, StreamingPCA.init,
        Vec3.add, Vec3.sub, Vec3.smul, Vec3.zero, Vec3.normSq]
      norm_num
      rw [if_pos h]

/-- Witness for C10 at the deployed warm-up of 30 and a concrete sample. -/
theorem pca_first_update_returns_zero_witness :
    1 < 30 ∧ (StreamingPCA.update (StreamingPCA.init 30) ⟨1, 2, 3⟩).2 = some 0 :=
  ⟨by decide, pca_first_update_returns_zero 30 ⟨1, 2, 3⟩ (by decide)⟩

/-! ### Session-level theorems (claims C3, C4, C5, C6) -/

/-- C5: handling a viewer reset request after any prior session state leaves
the session in exactly the freshly constructed session state — the
Orchestrator (projector warm-up, smoother, detector window and counts) is
rebuilt from its constructor with the same constants, the sample index is
zeroed, and the in-flight classification buffer is cleared.  Since all
further behavior of the consumer loop is a function of this state, state
equality gives behavioral indistinguishability. -/
theorem reset_request_yields_fresh_session (s : ServerState) :
    RepServer.handleResetRequest s = RepServer.freshSession := rfl

/-- C4 counterexample: a malformed viewer message that is valid JSON but not
a JSON object (for instance the payload `5`, or `[1,2]`) does NOT leave the
connection open: `data.get("action")` raises an uncaught `AttributeError`,
which terminates this viewer's handler and closes the connection, so
subsequent messages on that connection are never processed. -/
theorem malformed_nonobject_crashes_handler :
    RepServer.handleViewerMessage RepServer.freshSession ViewerMsg.jsonNonObject =
      HandlerStep.handlerError RepServer.freshSession := rfl

/-- C4 (amended): a viewer message that fails JSON parsing is ignored — the
connection stays open, no reply is sent and no session state changes — and
likewise a valid JSON object carrying no recognized action; but a message
that parses to a non-object JSON value terminates that viewer's handler
(the session state itself is still unchanged). -/
theorem malformed_message_handling (s : ServerState) (a : Option String)
    (h1 : a ≠ some "reset") (h2 : a ≠ some "start_auto_detect") :
    RepServer.handleViewerMessage s ViewerMsg.notJson = HandlerStep.ok s none ∧
    RepServer.handleViewerMessage s (ViewerMsg.jsonObject a) = HandlerStep.ok s none ∧
    RepServer.handleViewerMessage s ViewerMsg.jsonNonObject = HandlerStep.handlerError s := by
  refine ⟨rfl, ?_, rfl⟩
  simp only [RepServer.handleViewerMessage]
  rw [if_neg h1, if_neg h2]

/-- Witness for the amended C4 at a concrete state and a concrete
unrecognized action. -/
theorem malformed_message_handling_witness :
    RepServer.handleViewerMessage RepServer.freshSession (ViewerMsg.jsonObject (some "noop")) =
      HandlerStep.ok RepServer.freshSession none :=
  (malformed_message_handling RepServer.freshSession (some "noop")
    (by simp) (by simp)).2.1

set_option maxRecDepth 8000 in
/-- C3: with the handoff queue at its fixed capacity of 1000, the enqueue
the reader schedules (`put_nowait`) raises `QueueFull` — modelled as
`Except.error ()` — and the sample is not enqueued.  No code catches
`QueueFull`, so the fault is unhandled (logged by the event loop's default
handler) and the sample is silently lost: no documented backpressure policy
is followed. -/
theorem queue_overflow_unhandled :
    asyncioQueuePutNowait QUEUE_MAXSIZE
        (List.replicate QUEUE_MAXSIZE ((0 : ℤ), (0 : ℤ), (0 : ℤ))) (1, 2, 3) =
      Except.error () := by
  simp [asyncioQueuePutNowait, QUEUE_MAXSIZE]

/-- C6: when the open classification buffer reaches its required length of
`AUTO_DETECT_SAMPLES`, the consumer-loop step produces an
`exercise_detected` broadcast carrying the repetition count current at that
moment; the pipeline (Orchestrator and detector state) and the sample index
are untouched and only the buffer is closed; and if the classifier raised,
the broadcast carries the default `"bicep_curl"` label together with the
error annotation and that same count.  The step is a total function, so the
consumer loop continues afterwards. -/
theorem auto_detect_broadcast (s : ServerState) (buf : List Vec3) (x : Vec3)
    (cls : ClassifierOutcome)
    (hb : s.auto_detect_buffer = some buf)
    (hlen : AUTO_DETECT_SAMPLES ≤ (buf ++ [x]).length) :
    (RepServer.autoDetectStep s x cls).1.pipeline = s.pipeline ∧
    (RepServer.autoDetectStep s x cls).1.sample_idx = s.sample_idx ∧
    (RepServer.autoDetectStep s x cls).1.auto_detect_buffer = none ∧
    ∃ m : ExerciseMsg,
      (RepServer.autoDetectStep s x cls).2 = some m ∧
      m.rep_count = RepServer.repCountOf s ∧
      ∀ e, cls = ClassifierOutcome.err e →
        m.exercise = "bicep_curl" ∧ m.error = some e := by
  have hlen' : AUTO_DETECT_SAMPLES ≤ buf.length + 1 := by
    simpa using hlen
  have h9 : 9 ≤ buf.length := by
    have h200 : (200 : ℕ) ≤ buf.length + 1 := by
      have : AUTO_DETECT_SAMPLES = 200 := rfl
      omega
    omega
  cases cls with
  | unavailable =>
      refine ⟨?_, ?_, ?_, ⟨"bicep_curl", RepServer.repCountOf s, none⟩, ?_, rfl, ?_⟩ <;>
        simp [RepServer.autoDetectStep, hb, hlen', h9]
  | ok label =>
      refine ⟨?_, ?_, ?_, ⟨label, RepServer.repCountOf s, none⟩, ?_, rfl, ?_⟩ <;>
        simp [RepServer.autoDetectStep, hb, hlen', h9]
  | err e =>
      refine ⟨?_, ?_, ?_, ⟨"bicep_curl", RepServer.repCountOf s, some e⟩, ?_, rfl, ?_⟩ <;>
        simp [RepServer.autoDetectStep, hb, hlen', h9]

/-- Server state used to witness C6: a live pipeline, a nonzero sample
index, and an auto-detect buffer one sample short of the required 200. -/
def c6WitnessServer : ServerState :=
  { pipeline := some RepServer.freshPipeline, sample_idx := 7,
    auto_detect_buffer := some (List.replicate 199 ⟨0, 0, 0⟩) }

set_option maxRecDepth 8000 in
/-- Witness for C6: with the buffer one short of 200, one more sample and a
raising classifier yield the fallback broadcast with the captured count
while the pipeline is untouched. -/
theorem auto_detect_broadcast_witness :
    (RepServer.autoDetectStep c6WitnessServer ⟨1, 2, 3⟩ (ClassifierOutcome.err "boom")).1.pipeline =
        c6WitnessServer.pipeline ∧
    (RepServer.autoDetectStep c6WitnessServer ⟨1, 2, 3⟩ (ClassifierOutcome.err "boom")).1.sample_idx =
        c6WitnessServer.sample_idx ∧
    (RepServer.autoDetectStep c6WitnessServer ⟨1, 2, 3⟩ (ClassifierOutcome.err "boom")).1.auto_detect_buffer =
        none ∧
    ∃ m : ExerciseMsg,
      (RepServer.autoDetectStep c6WitnessServer ⟨1, 2, 3⟩ (ClassifierOutcome.err "boom")).2 = some m ∧
      m.rep_count = RepServer.repCountOf c6WitnessServer ∧
      ∀ e, ClassifierOutcome.err "boom" = ClassifierOutcome.err e →
        m.exercise = "bicep_curl" ∧ m.error = some e :=
  auto_detect_broadcast c6WitnessServer (List.replicate 199 ⟨0, 0, 0⟩) ⟨1, 2, 3⟩
    (ClassifierOutcome.err "boom") rfl (by decide)

/-! ### Repetition-detector theorems (claims C1, C2, C9) -/

/-- Detector configuration used to exercise the amplitude field: threshold 1,
minimum spacing 0, baseline window 50. -/
def ampBugCfg : RepCounterState := StreamingRepCounter.init 1 0 50

/-- Detector state after the three samples 0, 100, 0 (indices 0–2): the
machine has seen a peak and is awaiting a valley. -/
def ampBugPre : RepCounterState :=
  (StreamingRepCounter.runMany ampBugCfg [(0, 0), (100, 1), (0, 2)]).getD ampBugCfg

/-- C1 (code bug): on the fourth sample (value 100 at index 3) the detector
counts a repetition (`rep_detected = true`) whose true peak-to-valley
amplitude is 250/3 — recorded internally in `rep_amplitudes` and well above
the configured threshold of 1 — yet the `amplitude` field of the returned
record is 0, because the return site guards it with
`self.state == 'WAITING_FOR_VALLEY'`, which is always false right after the
counting transition (the transition just set the state back to
`WAITING_FOR_PEAK`).  The claim that the returned `amplitude` equals the
peak-to-valley amplitude and exceeds the threshold is therefore false on
every detection. -/
theorem detection_returns_zero_amplitude :
    (StreamingRepCounter.process_sample ampBugPre 100 3).map
        (fun o => (o.2.rep_detected, o.2.amplitude, o.1.rep_amplitudes)) =
      some (true, 0, [250 / 3]) := by
  with_unfolding_all rfl

/-- Structural fact about every successful `process_sample` call: the new
recent window is exactly `newRecentWindow` (append, then at most one
eviction) and the configured capacity is untouched. -/
theorem StreamingRepCounter.process_sample_recent (c : RepCounterState) (x : ℚ)
    (i : ℤ) (out : RepCounterState × ProcResult)
    (h : StreamingRepCounter.process_sample c x i = some out) :
    out.1.recent_samples = newRecentWindow c x ∧
    out.1.baseline_window = c.baseline_window := by
  cases hs : c.state with
  | waitingForPeak =>
      simp only [StreamingRepCounter.process_sample, hs, Option.some.injEq] at h
      subst h
      exact ⟨rfl, rfl⟩
  | waitingForValley =>
      simp only [StreamingRepCounter.process_sample, hs] at h
      cases hv : c.current_valley with
      | none => rw [hv] at h; simp at h
      | some v0 =>
          rw [hv] at h
          simp only at h
          split at h
          · cases hp : c.current_peak with
            | none => rw [hp] at h; simp at h
            | some p =>
                rw [hp] at h
                simp only [Option.some.injEq] at h
                subst h
                exact ⟨rfl, rfl⟩
          · simp only [Option.some.injEq] at h
            subst h
            exact ⟨rfl, rfl⟩

/-- One call keeps the window length within the capacity. -/
theorem newRecentWindow_length_le (c : RepCounterState) (x : ℚ)
    (hle : c.recent_samples.length ≤ c.baseline_window) :
    (newRecentWindow c x).length ≤ c.baseline_window := by
  simp only [newRecentWindow]
  split <;> simp_all [List.length_drop, List.length_append]

/-- Running the detector preserves the window-length invariant and never
touches the configured capacity. -/
theorem StreamingRepCounter.runMany_window (xs : List (ℚ × ℤ)) :
    ∀ (c s' : RepCounterState),
      c.recent_samples.length ≤ c.baseline_window →
      StreamingRepCounter.runMany c xs = some s' →
      s'.recent_samples.length ≤ s'.baseline_window ∧
      s'.baseline_window = c.baseline_window := by
  induction xs with
  | nil =>
      intro c s' hle h
      simp only [StreamingRepCounter.runMany, Option.some.injEq] at h
      subst h
      exact ⟨hle, rfl⟩
  | cons p ps ih =>
      intro c s' hle h
      simp only [StreamingRepCounter.runMany] at h
      cases hps : StreamingRepCounter.process_sample c p.1 p.2 with
      | none => rw [hps] at h; simp at h
      | some out =>
          rw [hps] at h
          obtain ⟨hr, hw⟩ := StreamingRepCounter.process_sample_recent c p.1 p.2 out hps
          have hle' : out.1.recent_samples.length ≤ out.1.baseline_window := by
            rw [hr, hw]
            exact newRecentWindow_length_le c p.1 hle
          obtain ⟨h1, h2⟩ := ih out.1 s' hle' h
          exact ⟨h1, by rw [h2, hw]⟩

/-- C9: after any sequence of processed samples starting from a freshly
constructed detector, the recent-sample baseline window never exceeds the
configured capacity; and on every successful call made with the window
exactly at a positive capacity, the new window is the old window with its
oldest element evicted and the new signal appended. -/
theorem baseline_window_bounded :
    (∀ (thr : ℚ) (msr w : ℕ) (xs : List (ℚ × ℤ)) (s' : RepCounterState),
        StreamingRepCounter.runMany (StreamingRepCounter.init thr msr w) xs = some s' →
        s'.recent_samples.length ≤ w) ∧
    (∀ (c : RepCounterState) (x : ℚ) (i : ℤ) (out : RepCounterState × ProcResult),
        StreamingRepCounter.process_sample c x i = some out →
        c.recent_samples.length = c.baseline_window →
        1 ≤ c.baseline_window →
        out.1.recent_samples = c.recent_samples.tail ++ [x]) := by
  constructor
  · intro thr msr w xs s' h
    have h0 : (StreamingRepCounter.init thr msr w).recent_samples.length ≤
        (StreamingRepCounter.init thr msr w).baseline_window := by
      simp [StreamingRepCounter.init]
    obtain ⟨h1, h2⟩ := StreamingRepCounter.runMany_window xs _ s' h0 h
    rw [h2] at h1
    exact h1
  · intro c x i out h hlen hpos
    obtain ⟨hr, _⟩ := StreamingRepCounter.process_sample_recent c x i out h
    rw [hr]
    simp only [newRecentWindow]
    have hcond : c.baseline_window < (c.recent_samples ++ [x]).length := by
      simp [List.length_append, hlen]
    rw [if_pos hcond]
    have h1le : 1 ≤ c.recent_samples.length := by omega
    rw [List.drop_append_of_le_length h1le, List.drop_one]

/-- Detector with capacity 2 used to witness C9. -/
def c9Cfg : RepCounterState := StreamingRepCounter.init 21 20 2

/-- State of the capacity-2 detector after three samples: the window holds
the two most recent signals. -/
def c9At : RepCounterState :=
  (StreamingRepCounter.runMany c9Cfg [(1, 0), (2, 1), (3, 2)]).getD c9Cfg

/-- Witness for C9 at concrete inputs: the window length is within the
capacity after a three-sample run, and a fourth sample on the at-capacity
window evicts the oldest entry. -/
theorem baseline_window_bounded_witness :
    c9At.recent_samples.length ≤ 2 ∧
    ((StreamingRepCounter.process_sample c9At 9 3).getD
        (c9At, ⟨0, .waitingForPeak, 0, false, 0⟩)).1.recent_samples =
      c9At.recent_samples.tail ++ [9] :=
  ⟨baseline_window_bounded.1 21 20 2 [(1, 0), (2, 1), (3, 2)] c9At
      (by with_unfolding_all rfl),
   baseline_window_bounded.2 c9At 9 3
      ((StreamingRepCounter.process_sample c9At 9 3).getD
        (c9At, ⟨0, .waitingForPeak, 0, false, 0⟩))
      (by with_unfolding_all rfl)
      (by with_unfolding_all rfl)
      (by with_unfolding_all (exact of_decide_eq_true rfl))⟩

/-- C2: on every successful `process_sample` call the repetition count
either stays or increases by exactly one, and it increases precisely when
the detector entered the call in the `WAITING_FOR_VALLEY` state with a
tracked valley and peak, the centered signal rises more than the hysteresis
margin (3) above the tracked valley, the peak-to-valley amplitude strictly
exceeds the configured threshold, and the (just incremented) debounce
counter strictly exceeds the configured minimum spacing; in particular the
count never increases on a peak-to-valley transition (a call entered in the
`WAITING_FOR_PEAK` state). -/
theorem rep_count_increment_iff (c : RepCounterState) (x : ℚ) (i : ℤ)
    (c' : RepCounterState) (r : ProcResult)
    (h : StreamingRepCounter.process_sample c x i = some (c', r)) :
    (c'.rep_count = c.rep_count ∨ c'.rep_count = c.rep_count + 1) ∧
    (c'.rep_count = c.rep_count + 1 ↔
      c.state = RepState.waitingForValley ∧
      ∃ v0 p, c.current_valley = some v0 ∧ c.current_peak = some p ∧
        trackedValley v0 (centeredSignal c x) + 3 < centeredSignal c x ∧
        c.amplitude_threshold < p - trackedValley v0 (centeredSignal c x) ∧
        c.min_samples_between_reps < c.samples_since_last_rep + 1) ∧
    (c.state = RepState.waitingForPeak → c'.rep_count = c.rep_count) := by
  cases hs : c.state with
  | waitingForPeak =>
      simp only [StreamingRepCounter.process_sample, hs, Option.some.injEq,
        Prod.mk.injEq] at h
      obtain ⟨hc, -⟩ := h
      subst hc
      refine ⟨Or.inl rfl, ?_, fun _ => rfl⟩
      simp
  | waitingForValley =>
      simp only [StreamingRepCounter.process_sample, hs] at h
      cases hv : c.current_valley with
      | none => rw [hv] at h; simp at h
      | some v0 =>
          rw [hv] at h
          simp only at h
          split at h
          next hcond =>
            cases hp : c.current_peak with
            | none => rw [hp] at h; simp at h
            | some p =>
                rw [hp] at h
                simp only [Option.some.injEq, Prod.mk.injEq] at h
                obtain ⟨hc, -⟩ := h
                subst hc
                by_cases hA : c.amplitude_threshold <
                    p - trackedValley v0 (x - listMean (newRecentWindow c x))
                · by_cases hB : c.min_samples_between_reps <
                      c.samples_since_last_rep + 1
                  · refine ⟨Or.inr (by simp [hA, hB]), ?_, fun hpk => ?_⟩
                    · constructor
                      · intro _
                        exact ⟨rfl, v0, p, rfl, rfl,
                          (by simpa [centeredSignal] using hcond),
                          (by simpa [centeredSignal] using hA), hB⟩
                      · intro _
                        simp [hA, hB]
                    · simp at hpk
                  · refine ⟨Or.inl (by simp [hB]), ?_, fun hpk => by simp at hpk⟩
                    constructor
                    · intro hL
                      simp [hB] at hL
                    · rintro ⟨-, v0', p', hv', hp', -, -, hB'⟩
                      exact absurd hB' hB
                · refine ⟨Or.inl (by simp [hA]), ?_, fun hpk => by simp at hpk⟩
                  constructor
                  · intro hL
                    simp [hA] at hL
                  · rintro ⟨-, v0', p', hv', hp', -, hA', -⟩
                    injection hv' with hv''
                    subst hv''
                    injection hp' with hp''
                    subst hp''
                    simp only [centeredSignal] at hA'
                    exact absurd hA' hA
          next hcond =>
            simp only [Option.some.injEq, Prod.mk.injEq] at h
            obtain ⟨hc, -⟩ := h
            subst hc
            refine ⟨Or.inl rfl, ?_, fun _ => rfl⟩
            constructor
            · intro hL
              simp at hL
            · rintro ⟨-, v0', p', hv', hp', hcond', -, -⟩
              injection hv' with hv''
              subst hv''
              simp only [centeredSignal] at hcond'
              exact absurd hcond' hcond

/-- Freshly constructed detector with the deployed configuration, used to
witness C2. -/
def c2Witness : RepCounterState := StreamingRepCounter.init 21 20 50

/-- Concrete successful call used to witness C2. -/
def c2WitnessOut : RepCounterState × ProcResult :=
  (StreamingRepCounter.process_sample c2Witness 5 0).getD
    (c2Witness, ⟨0, .waitingForPeak, 0, false, 0⟩)

/-- Witness for C2 at a concrete call of the deployed configuration. -/
theorem rep_count_increment_iff_witness :
    c2WitnessOut.1.rep_count = c2Witness.rep_count ∨
    c2WitnessOut.1.rep_count = c2Witness.rep_count + 1 :=
  (rep_count_increment_iff c2Witness 5 0 c2WitnessOut.1 c2WitnessOut.2
    (by with_unfolding_all rfl)).1
